import Mathlib

/-!
Verification development for the PMT data explorer's chart engine
(`src/PMTDataExplorer.jsx`).  The numeric model uses `ℚ` for finite
JavaScript numbers; the wrapper type `JNum` adds `NaN` and the two
infinities so that the IEEE-style special cases of `+ - * /` (in
particular `0 / 0 = NaN`, which `scaleData` can hit) are represented
faithfully.  Signed zero is not modelled: no claim depends on it.
-/

namespace PMTExplorer

attribute [local semireducible] Rat.add Rat.mul Rat.inv Rat.sub

/-- A JavaScript number: a finite rational, `NaN`, `+Infinity` or `-Infinity`. -/
inductive JNum where
  | fin (q : ℚ)
  | nan
  | inf
  | ninf
deriving DecidableEq

/-- JavaScript unary minus. -/
def JNum.neg : JNum → JNum
  | .fin q => .fin (-q)
  | .nan => .nan
  | .inf => .ninf
  | .ninf => .inf

/-- JavaScript `+` on numbers. -/
def JNum.add : JNum → JNum → JNum
  | .nan, _ => .nan
  | _, .nan => .nan
  | .fin a, .fin b => .fin (a + b)
  | .inf, .ninf => .nan
  | .ninf, .inf => .nan
  | .inf, _ => .inf
  | _, .inf => .inf
  | .ninf, _ => .ninf
  | _, .ninf => .ninf

/-- JavaScript `-` on numbers (addition of the negation). -/
def JNum.sub (a b : JNum) : JNum := a.add b.neg

/-- JavaScript `*` on numbers. -/
def JNum.mul : JNum → JNum → JNum
  | .nan, _ => .nan
  | _, .nan => .nan
  | .fin a, .fin b => .fin (a * b)
  | .inf, .fin b => if b = 0 then .nan else if 0 < b then .inf else .ninf
  | .fin a, .inf => if a = 0 then .nan else if 0 < a then .inf else .ninf
  | .ninf, .fin b => if b = 0 then .nan else if 0 < b then .ninf else .inf
  | .fin a, .ninf => if a = 0 then .nan else if 0 < a then .ninf else .inf
  | .inf, .inf => .inf
  | .inf, .ninf => .ninf
  | .ninf, .inf => .ninf
  | .ninf, .ninf => .inf

/-- JavaScript `/` on numbers; `0 / 0` is `NaN`, `x / 0` for `x ≠ 0` is a
signed infinity (positive zero assumed, signed zero not modelled). -/
def JNum.div : JNum → JNum → JNum
  | .nan, _ => .nan
  | _, .nan => .nan
  | .fin a, .fin b =>
      if b = 0 then (if a = 0 then .nan else if 0 < a then .inf else .ninf)
      else .fin (a / b)
  | .fin _, .inf => .fin 0
  | .fin _, .ninf => .fin 0
  | .inf, .fin b => if 0 ≤ b then .inf else .ninf
  | .ninf, .fin b => if 0 ≤ b then .ninf else .inf
  | .inf, .inf => .nan
  | .inf, .ninf => .nan
  | .ninf, .inf => .nan
  | .ninf, .ninf => .nan

/-- Embedding of `scaleData` (PMTDataExplorer.jsx lines 51-53):
`rangeMin + (rangeMax - rangeMin) * (value - domainMin) / (domainMax - domainMin)`,
with JavaScript's left-associative grouping of `*` and `/`. -/
def scaleData (value domainMin domainMax rangeMin rangeMax : JNum) : JNum :=
  rangeMin.add (((rangeMax.sub rangeMin).mul (value.sub domainMin)).div
    (domainMax.sub domainMin))

/-- `chartWidth` constant from `SvgLineChart`. -/
def chartWidth : ℚ := 700

/-- `chartHeight` constant from `SvgLineChart`. -/
def chartHeight : ℚ := 400

/-- `padding` constant from `SvgLineChart`. -/
def padding : ℚ := 50

/-- Embedding of `xScale` (line 93):
`(x) => scaleData(x, xMin, xMax, padding, chartWidth - padding)`. -/
def xScaleFn (xMin xMax : ℚ) (x : JNum) : JNum :=
  scaleData x (.fin xMin) (.fin xMax) (.fin padding) (.fin (chartWidth - padding))

/-- Embedding of `yScale` (line 94):
`(y) => scaleData(y, yMin, yMax, chartHeight - padding, padding)` — the pixel
range is inverted for SVG. -/
def yScaleFn (yMin yMax : ℚ) (y : JNum) : JNum :=
  scaleData y (.fin yMin) (.fin yMax) (.fin (chartHeight - padding)) (.fin padding)

/-- `Math.min(...values)` folded over finite rationals; the engine only
evaluates it on a non-empty array (empty data is guarded first). -/
def arrMin : List ℚ → ℚ
  | [] => 0
  | x :: xs => xs.foldl min x

/-- `Math.max(...values)` folded over finite rationals. -/
def arrMax : List ℚ → ℚ
  | [] => 0
  | x :: xs => xs.foldl max x

lemma scaleData_fin (v dMin dMax rMin rMax : ℚ) (h : dMax - dMin ≠ 0) :
    scaleData (.fin v) (.fin dMin) (.fin dMax) (.fin rMin) (.fin rMax)
      = .fin (rMin + (rMax - rMin) * (v - dMin) / (dMax - dMin)) := by
  have h' : dMax + -dMin ≠ 0 := by rwa [← sub_eq_add_neg]
  simp only [scaleData, JNum.sub, JNum.neg, JNum.add, JNum.mul, JNum.div,
    if_neg h']
  rw [JNum.fin.injEq]
  ring

lemma foldl_min_le (xs : List ℚ) (x : ℚ) :
    xs.foldl min x ≤ x ∧ ∀ y ∈ xs, xs.foldl min x ≤ y := by
  induction xs generalizing x with
  | nil => simp
  | cons a as ih =>
    refine ⟨le_trans (ih (min x a)).1 (min_le_left _ _), ?_⟩
    intro y hy
    rcases List.mem_cons.1 hy with rfl | hy
    · exact le_trans (ih (min x y)).1 (min_le_right _ _)
    · exact (ih (min x a)).2 y hy

lemma le_foldl_max (xs : List ℚ) (x : ℚ) :
    x ≤ xs.foldl max x ∧ ∀ y ∈ xs, y ≤ xs.foldl max x := by
  induction xs generalizing x with
  | nil => simp
  | cons a as ih =>
    refine ⟨le_trans (le_max_left _ _) (ih (max x a)).1, ?_⟩
    intro y hy
    rcases List.mem_cons.1 hy with rfl | hy
    · exact le_trans (le_max_right _ _) (ih (max x y)).1
    · exact (ih (max x a)).2 y hy

lemma foldl_min_mem (xs : List ℚ) (x : ℚ) :
    xs.foldl min x = x ∨ xs.foldl min x ∈ xs := by
  induction xs generalizing x with
  | nil => simp
  | cons a as ih =>
    rcases ih (min x a) with h | h
    · rcases min_choice x a with hm | hm
      · exact Or.inl (h.trans hm)
      · exact Or.inr (List.mem_cons.2 (Or.inl (h.trans hm)))
    · exact Or.inr (List.mem_cons.2 (Or.inr h))

lemma foldl_max_mem (xs : List ℚ) (x : ℚ) :
    xs.foldl max x = x ∨ xs.foldl max x ∈ xs := by
  induction xs generalizing x with
  | nil => simp
  | cons a as ih =>
    rcases ih (max x a) with h | h
    · rcases max_choice x a with hm | hm
      · exact Or.inl (h.trans hm)
      · exact Or.inr (List.mem_cons.2 (Or.inl (h.trans hm)))
    · exact Or.inr (List.mem_cons.2 (Or.inr h))

lemma arrMin_mem (l : List ℚ) (h : l ≠ []) : arrMin l ∈ l := by
  cases l with
  | nil => exact absurd rfl h
  | cons x xs =>
    show xs.foldl min x ∈ x :: xs
    rcases foldl_min_mem xs x with h1 | h1
    · rw [h1]; exact List.mem_cons_self _ _
    · exact List.mem_cons.2 (Or.inr h1)

lemma arrMax_mem (l : List ℚ) (h : l ≠ []) : arrMax l ∈ l := by
  cases l with
  | nil => exact absurd rfl h
  | cons x xs =>
    show xs.foldl max x ∈ x :: xs
    rcases foldl_max_mem xs x with h1 | h1
    · rw [h1]; exact List.mem_cons_self _ _
    · exact List.mem_cons.2 (Or.inr h1)

lemma arrMin_le (l : List ℚ) (y : ℚ) (hy : y ∈ l) : arrMin l ≤ y := by
  cases l with
  | nil => simp at hy
  | cons x xs =>
    rcases List.mem_cons.1 hy with rfl | hy
    · exact (foldl_min_le xs y).1
    · exact (foldl_min_le xs x).2 y hy

lemma le_arrMax (l : List ℚ) (y : ℚ) (hy : y ∈ l) : y ≤ arrMax l := by
  cases l with
  | nil => simp at hy
  | cons x xs =>
    rcases List.mem_cons.1 hy with rfl | hy
    · exact (le_foldl_max xs y).1
    · exact (le_foldl_max xs x).2 y hy

/-- C1: for a non-empty array with `min < max`, the linear scale sends the
domain minimum to `rangeMin` and the domain maximum to `rangeMax` (exactly, in
the rational model); instantiated at the chart's horizontal scale
(`padding = 50` to `chartWidth - padding = 650`) and vertical scale, whose
pixel range is inverted: the domain minimum lands at `chartHeight - padding
= 350` (the larger pixel coordinate) and the maximum at `padding = 50`
(the smaller), so larger values map to smaller pixel y. -/
theorem c1_scale_endpoints (l : List ℚ) (rMin rMax : ℚ)
    (h : arrMin l < arrMax l) :
    scaleData (.fin (arrMin l)) (.fin (arrMin l)) (.fin (arrMax l))
        (.fin rMin) (.fin rMax) = .fin rMin ∧
    scaleData (.fin (arrMax l)) (.fin (arrMin l)) (.fin (arrMax l))
        (.fin rMin) (.fin rMax) = .fin rMax ∧
    xScaleFn (arrMin l) (arrMax l) (.fin (arrMin l)) = .fin 50 ∧
    xScaleFn (arrMin l) (arrMax l) (.fin (arrMax l)) = .fin 650 ∧
    yScaleFn (arrMin l) (arrMax l) (.fin (arrMin l)) = .fin 350 ∧
    yScaleFn (arrMin l) (arrMax l) (.fin (arrMax l)) = .fin 50 ∧
    (50 : ℚ) < 350 := by
  have hne : arrMax l - arrMin l ≠ 0 := sub_ne_zero.2 (ne_of_gt h)
  have hmin : ∀ rMin' rMax' : ℚ,
      scaleData (.fin (arrMin l)) (.fin (arrMin l)) (.fin (arrMax l))
        (.fin rMin') (.fin rMax') = .fin rMin' := by
    intro rMin' rMax'
    rw [scaleData_fin _ _ _ _ _ hne, JNum.fin.injEq]
    rw [sub_self, mul_zero, zero_div, add_zero]
  have hmax : ∀ rMin' rMax' : ℚ,
      scaleData (.fin (arrMax l)) (.fin (arrMin l)) (.fin (arrMax l))
        (.fin rMin') (.fin rMax') = .fin rMax' := by
    intro rMin' rMax'
    rw [scaleData_fin _ _ _ _ _ hne, JNum.fin.injEq]
    field_simp
  refine ⟨hmin rMin rMax, hmax rMin rMax, ?_, ?_, ?_, ?_, by norm_num⟩
  · norm_num [xScaleFn, padding, hmin]
  · norm_num [xScaleFn, chartWidth, padding, hmax]
  · norm_num [yScaleFn, chartHeight, padding, hmin]
  · norm_num [yScaleFn, chartHeight, padding, hmax]

/-- Witness for C1 at the concrete array `[2, 3]` with range `[50, 650]`. -/
theorem c1_scale_endpoints_witness :
    arrMin [(2 : ℚ), 3] < arrMax [(2 : ℚ), 3] ∧
    (scaleData (.fin (arrMin [(2 : ℚ), 3])) (.fin (arrMin [(2 : ℚ), 3]))
        (.fin (arrMax [(2 : ℚ), 3])) (.fin 50) (.fin 650) = .fin 50 ∧
      scaleData (.fin (arrMax [(2 : ℚ), 3])) (.fin (arrMin [(2 : ℚ), 3]))
        (.fin (arrMax [(2 : ℚ), 3])) (.fin 50) (.fin 650) = .fin 650 ∧
      xScaleFn (arrMin [(2 : ℚ), 3]) (arrMax [(2 : ℚ), 3])
        (.fin (arrMin [(2 : ℚ), 3])) = .fin 50 ∧
      xScaleFn (arrMin [(2 : ℚ), 3]) (arrMax [(2 : ℚ), 3])
        (.fin (arrMax [(2 : ℚ), 3])) = .fin 650 ∧
      yScaleFn (arrMin [(2 : ℚ), 3]) (arrMax [(2 : ℚ), 3])
        (.fin (arrMin [(2 : ℚ), 3])) = .fin 350 ∧
      yScaleFn (arrMin [(2 : ℚ), 3]) (arrMax [(2 : ℚ), 3])
        (.fin (arrMax [(2 : ℚ), 3])) = .fin 50 ∧
      (50 : ℚ) < 350) :=
  ⟨by decide, c1_scale_endpoints [2, 3] 50 650 (by decide)⟩

/-- C3: the code does NOT handle a degenerate domain — when
`domainMin = domainMax`, `scaleData` evaluates `0 / 0` and returns `NaN`
for every value equal to the constant, not a finite in-range pixel value.
This confirms the defect the spec flags; the claim's required behavior
(finite midpoint) is what the code fails to provide. -/
theorem c3_degenerate_domain_nan (c rMin rMax : ℚ) :
    scaleData (.fin c) (.fin c) (.fin c) (.fin rMin) (.fin rMax) = JNum.nan := by
  have h1 : c + -c = 0 := by ring
  simp [scaleData, JNum.sub, JNum.neg, JNum.add, JNum.mul, JNum.div, h1]

/-- Embedding of the tick loop (lines 80-88) over finite values:
`for i in 0..5, push(min + (range / 5) * i)` with `range = max - min`. -/
def ticksQ (mn mx : ℚ) : List ℚ :=
  (List.range 6).map (fun i => mn + (mx - mn) / 5 * (i : ℚ))

/-- The same tick loop over the full JavaScript-number model (used for the
y axis, where an unknown metric makes the bounds `NaN`). -/
def ticksJ (mn mx : JNum) : List JNum :=
  (List.range 6).map (fun i => mn.add (((mx.sub mn).div (.fin 5)).mul (.fin (i : ℚ))))

lemma ticksJ_fin (mn mx : ℚ) :
    ticksJ (.fin mn) (.fin mx) = (ticksQ mn mx).map .fin := by
  simp only [ticksJ, ticksQ, List.map_map]
  refine List.map_congr_left ?_
  intro i _
  simp only [Function.comp_apply, JNum.sub, JNum.neg, JNum.add, JNum.mul, JNum.div]
  rw [if_neg (by norm_num : (5 : ℚ) ≠ 0)]
  simp only [JNum.add, JNum.mul, JNum.fin.injEq]
  ring

/-- C2: tick generation from a non-empty array returns exactly 6 values,
the k-th being `min + k/5 * (max - min)`; they are evenly spaced, the first
is the array's minimum and the last its maximum (both attained members of
the array), with no rounding; and the JavaScript-number tick computation
agrees with the rational one on finite bounds. -/
theorem c2_ticks (l : List ℚ) (h : l ≠ []) :
    (ticksQ (arrMin l) (arrMax l)).length = 6 ∧
    (∀ k, k < 6 → (ticksQ (arrMin l) (arrMax l)).getD k 0
        = arrMin l + (k : ℚ) / 5 * (arrMax l - arrMin l)) ∧
    (ticksQ (arrMin l) (arrMax l)).getD 0 0 = arrMin l ∧
    (ticksQ (arrMin l) (arrMax l)).getD 5 0 = arrMax l ∧
    arrMin l ∈ l ∧ arrMax l ∈ l ∧
    (∀ y ∈ l, arrMin l ≤ y) ∧ (∀ y ∈ l, y ≤ arrMax l) ∧
    (∀ k, k < 5 → (ticksQ (arrMin l) (arrMax l)).getD (k + 1) 0
        - (ticksQ (arrMin l) (arrMax l)).getD k 0 = (arrMax l - arrMin l) / 5) ∧
    ticksJ (.fin (arrMin l)) (.fin (arrMax l))
      = (ticksQ (arrMin l) (arrMax l)).map .fin := by
  have hrange : List.range 6 = [0, 1, 2, 3, 4, 5] := by decide
  have hticks : ticksQ (arrMin l) (arrMax l)
      = [arrMin l + (arrMax l - arrMin l) / 5 * 0,
         arrMin l + (arrMax l - arrMin l) / 5 * 1,
         arrMin l + (arrMax l - arrMin l) / 5 * 2,
         arrMin l + (arrMax l - arrMin l) / 5 * 3,
         arrMin l + (arrMax l - arrMin l) / 5 * 4,
         arrMin l + (arrMax l - arrMin l) / 5 * 5] := by
    simp [ticksQ, hrange]
  refine ⟨by rw [hticks]; rfl, ?_, ?_, ?_, arrMin_mem l h, arrMax_mem l h,
    arrMin_le l, le_arrMax l, ?_, ticksJ_fin _ _⟩
  · intro k hk
    interval_cases k <;> rw [hticks] <;> simp [List.getD] <;> try ring
  · rw [hticks]; simp
  · rw [hticks]; simp [List.getD]; try ring
  · intro k hk
    interval_cases k <;> rw [hticks] <;> simp [List.getD] <;> try ring

/-- Witness for C2 at the concrete array `[1, 2]`. -/
theorem c2_ticks_witness :
    [(1 : ℚ), 2] ≠ [] ∧
    (ticksQ (arrMin [(1 : ℚ), 2]) (arrMax [(1 : ℚ), 2])).length = 6 ∧
    (ticksQ (arrMin [(1 : ℚ), 2]) (arrMax [(1 : ℚ), 2])).getD 5 0
      = arrMax [(1 : ℚ), 2] :=
  ⟨by decide,
   (c2_ticks [1, 2] (by decide)).1,
   (c2_ticks [1, 2] (by decide)).2.2.2.1⟩

/-- A measurement record as stored in `initialData` / Firestore (the `id`
field added by the snapshot mapping is irrelevant to every claim and
omitted). -/
structure Point where
  source_file : String
  current : ℚ
  intensity : ℚ
  wavelength : ℚ
  light_response : ℚ
deriving DecidableEq

/-- Property lookup `d[key]` restricted to the numeric fields of a record;
`none` models a lookup that does not produce a number (an absent key yields
`undefined`, the string fields are not numbers). -/
def Point.metricValue (d : Point) (m : String) : Option ℚ :=
  if m = "light_response" then some d.light_response
  else if m = "current" then some d.current
  else if m = "intensity" then some d.intensity
  else if m = "wavelength" then some d.wavelength
  else none

/-- `d[key]` as it enters `Math.min`/`Math.max` and arithmetic: a non-number
(`undefined`) coerces to `NaN`. -/
def Point.metricJ (d : Point) (m : String) : JNum :=
  match d.metricValue m with
  | some q => .fin q
  | none => .nan

/-- `Math.min(a, b)`: `NaN` if either argument is `NaN`. -/
def jsMin2 : JNum → JNum → JNum
  | .nan, _ => .nan
  | _, .nan => .nan
  | .fin a, .fin b => .fin (min a b)
  | .ninf, _ => .ninf
  | _, .ninf => .ninf
  | .inf, b => b
  | a, .inf => a

/-- `Math.max(a, b)`: `NaN` if either argument is `NaN`. -/
def jsMax2 : JNum → JNum → JNum
  | .nan, _ => .nan
  | _, .nan => .nan
  | .fin a, .fin b => .fin (max a b)
  | .inf, _ => .inf
  | _, .inf => .inf
  | .ninf, b => b
  | a, .ninf => a

/-- `Math.min(...l)`; `Math.min()` of no arguments is `+Infinity`. -/
def jsMinList (l : List JNum) : JNum := l.foldl jsMin2 .inf

/-- `Math.max(...l)`; `Math.max()` of no arguments is `-Infinity`. -/
def jsMaxList (l : List JNum) : JNum := l.foldl jsMax2 .ninf

/-- One entry of `Y_AXIS_OPTIONS` (the icon JSX is presentation only). -/
structure AxisOption where
  key : String
  label : String
deriving DecidableEq

/-- `Y_AXIS_OPTIONS` (lines 37-41). -/
def Y_AXIS_OPTIONS : List AxisOption :=
  [⟨"light_response", "Light Response (A/uWatt/cm²/nm)"⟩,
   ⟨"current", "Current (A)"⟩,
   ⟨"intensity", "Intensity (uWatt/cm²/nm)"⟩]

/-- `PLOT_COLORS` (lines 43-46). -/
def PLOT_COLORS : List String :=
  ["#ef4444", "#3b82f6", "#10b981", "#f97316", "#a855f7",
   "#06b6d4", "#eab308", "#ec4899", "#84cc16", "#6366f1"]

/-- `Y_AXIS_OPTIONS.find(opt => opt.key === selectedMetric)?.label || ''`
(line 90): the label of the matching option, or the empty string when no
option matches (the option labels are non-empty, so `||` only fires on the
missing case). -/
def metricLabel (m : String) : String :=
  ((Y_AXIS_OPTIONS.find? (fun opt => opt.key == m)).map (fun opt => opt.label)).getD ""

/-- Comparator order of `(a, b) => a.wavelength - b.wavelength` (line 112):
`a` precedes `b` when `a.wavelength ≤ b.wavelength`. -/
def wlLE (a b : Point) : Prop := a.wavelength ≤ b.wavelength

instance : DecidableRel wlLE := fun a b =>
  inferInstanceAs (Decidable (a.wavelength ≤ b.wavelength))

instance : IsTotal Point wlLE := ⟨fun a b => le_total a.wavelength b.wavelength⟩

instance : IsTrans Point wlLE := ⟨fun _ _ _ h1 h2 => le_trans h1 h2⟩

/-- `.sort((a, b) => a.wavelength - b.wavelength)` — JavaScript's stable sort
with this comparator, modelled by a stable insertion sort. -/
def sortByWavelength (l : List Point) : List Point := l.insertionSort wlLE

/-- Embedding of `dataByPmt` (lines 110-114): `pmtList.reduce` building one
entry per `pmt`, holding `data.filter(d => d.source_file === pmt)` sorted by
wavelength; the object keyed by `pmt` is modelled as an association list in
`pmtList` order. -/
def dataByPmt (data : List Point) (pmtList : List String) :
    List (String × List Point) :=
  pmtList.map (fun pmt =>
    (pmt, sortByWavelength (data.filter (fun d => d.source_file == pmt))))

/-- Floor of a rational as an integer (`Int.fdiv` rounds toward `-∞`). -/
def ratFloor (q : ℚ) : ℤ := q.num.fdiv q.den

/-- Ceiling of a rational as an integer. -/
def ratCeil (q : ℚ) : ℤ := -ratFloor (-q)

/-- ECMAScript rounding used by `toFixed`/`toExponential`: the integer `n`
closest to `q`, with ties resolved to the larger `n`. -/
def ratRound (q : ℚ) : ℤ := ratFloor (q + 1 / 2)

/-- `⌊log10 n⌋` for `n ≥ 1`, by fuel recursion (`n` itself bounds the digit
count, and the recursion stops as soon as `n < 10`). -/
def natLog10Aux : ℕ → ℕ → ℕ
  | 0, _ => 0
  | fuel + 1, n => if n < 10 then 0 else natLog10Aux fuel (n / 10) + 1

/-- `⌊log10 n⌋` for `n ≥ 1`. -/
def natLog10 (n : ℕ) : ℕ := natLog10Aux n n

/-- `⌈log10 n⌉` for `n ≥ 1`: the least `k` with `n ≤ 10 ^ k`. -/
def natCLog10Aux : ℕ → ℕ → ℕ
  | 0, _ => 0
  | fuel + 1, n => if n ≤ 1 then 0 else natCLog10Aux fuel ((n + 9) / 10) + 1

/-- `⌈log10 n⌉` for `n ≥ 1`. -/
def natCLog10 (n : ℕ) : ℕ := natCLog10Aux n n

/-- `x.toFixed(1)` for a non-negative rational. -/
def jsToFixed1Nonneg (x : ℚ) : String :=
  let n := (ratRound (x * 10)).toNat
  toString (n / 10) ++ "." ++ toString (n % 10)

/-- `x.toFixed(1)`: one digit after the decimal point. -/
def jsToFixed1 (x : ℚ) : String :=
  if x < 0 then "-" ++ jsToFixed1Nonneg (-x) else jsToFixed1Nonneg x

/-- A natural number printed with leading zeros to `f` digits. -/
def padDigits (f : ℕ) (m : ℕ) : String :=
  let s := toString m
  String.mk (List.replicate (f - s.length) '0') ++ s

/-- The exponent part of `toExponential` output: sign always present, no
leading zeros. -/
def expPart (e : ℤ) : String :=
  "e" ++ (if e < 0 then "-" else "+") ++ toString e.natAbs

/-- `x.toExponential(f)` for `f ≥ 1`: mantissa with one leading digit and
`f` fraction digits (`f + 1` significant digits), ECMAScript rounding with
ties to the larger mantissa, exponent normalised so the mantissa is in
`[1, 10)`. -/
def jsToExponential (f : ℕ) (x : ℚ) : String :=
  if x = 0 then "0." ++ String.mk (List.replicate f '0') ++ "e+0"
  else
    let s := if x < 0 then "-" else ""
    let a := |x|
    let e0 : ℤ :=
      if 1 ≤ a then (natLog10 (ratFloor a).toNat : ℤ)
      else -(natCLog10 (ratCeil a⁻¹).toNat : ℤ)
    let n0 := (ratRound (a / (10 : ℚ) ^ (e0 - f))).toNat
    let n := if n0 = 10 ^ (f + 1) then 10 ^ f else n0
    let e := if n0 = 10 ^ (f + 1) then e0 + 1 else e0
    s ++ toString (n / 10 ^ f) ++ "." ++ padDigits f (n % 10 ^ f) ++ expPart e

/-- The tooltip string of one marker (line 214):
```${pmt}: Wavelength=${d.wavelength.toFixed(1)}nm, ${selectedMetric}=${d[selectedMetric].toExponential(3)}` ``. -/
def tooltipString (pmt : String) (d : Point) (m : String) (v : ℚ) : String :=
  pmt ++ ": Wavelength=" ++ jsToFixed1 d.wavelength ++ "nm, " ++ m ++ "="
    ++ jsToExponential 3 v

/-- One rendered circle of the marker loop (lines 203-216).  `tooltip` is
`none` when the metric lookup yields no number: there `d[selectedMetric]`
is `undefined` and `.toExponential` has no result (a thrown `TypeError`). -/
structure Marker where
  wavelength : ℚ
  value : Option ℚ
  tooltip : Option String
deriving DecidableEq

/-- The marker built for point `d` of series `pmt` under metric `m`. -/
def mkMarker (pmt m : String) (d : Point) : Marker :=
  { wavelength := d.wavelength
    value := d.metricValue m
    tooltip := (d.metricValue m).map (fun v => tooltipString pmt d m v) }

/-- The data-dependent content of the rendered SVG: raw tick values, the
y-axis label, and per-series sorted markers. -/
structure Scene where
  xAxisTicks : List ℚ
  yAxisTicks : List JNum
  yAxisLabel : String
  series : List (String × List Marker)
deriving DecidableEq

/-- The two possible outputs of `SvgLineChart`: the empty-data placeholder
panel (lines 101-107) or the drawn chart. -/
inductive ChartOutput where
  | placeholder (message : String)
  | chart (scene : Scene)
deriving DecidableEq

/-- Embedding of the `SvgLineChart` component (lines 60-228): if
`data.length === 0` the placeholder is returned and nothing is computed;
otherwise scales, ticks, label, grouping and markers are derived exactly as
in the `useMemo` block and the JSX body.  This is the element description
the component builds; evaluating a marker whose metric lookup produced no
number throws during render — that path is modelled by `renderChart`
below. -/
def SvgLineChart (data : List Point) (selectedMetric : String)
    (pmtList : List String) : ChartOutput :=
  if data.length = 0 then
    .placeholder "No data selected or available to plot."
  else
    .chart
      { xAxisTicks :=
          ticksQ (arrMin (data.map (fun d => d.wavelength)))
            (arrMax (data.map (fun d => d.wavelength)))
        yAxisTicks :=
          ticksJ (jsMinList (data.map (fun d => d.metricJ selectedMetric)))
            (jsMaxList (data.map (fun d => d.metricJ selectedMetric)))
        yAxisLabel := metricLabel selectedMetric
        series :=
          (dataByPmt data pmtList).map (fun pr =>
            (pr.1, pr.2.map (mkMarker pr.1 selectedMetric))) }

/-- Lexicographic comparison of character lists by code point, as
JavaScript's default `Array.prototype.sort` compares strings (code-unit
order; identical to code-point order for the basic-plane strings handled
here). -/
def charListLE : List Char → List Char → Bool
  | [], _ => true
  | _ :: _, [] => false
  | a :: as, b :: bs =>
      if a.toNat < b.toNat then true
      else if b.toNat < a.toNat then false
      else charListLE as bs

lemma charListLE_total (as : List Char) : ∀ bs,
    charListLE as bs = true ∨ charListLE bs as = true := by
  induction as with
  | nil => intro bs; left; rfl
  | cons a as ih =>
    intro bs
    cases bs with
    | nil => right; rfl
    | cons b bs =>
      rcases Nat.lt_trichotomy a.toNat b.toNat with h | h | h
      · left; simp only [charListLE]; rw [if_pos h]
      · rcases ih bs with hr | hr
        · left; simp only [charListLE]
          rw [if_neg (by omega), if_neg (by omega)]; exact hr
        · right; simp only [charListLE]
          rw [if_neg (by omega), if_neg (by omega)]; exact hr
      · right; simp only [charListLE]; rw [if_pos h]

lemma charListLE_trans (as : List Char) : ∀ bs cs,
    charListLE as bs = true → charListLE bs cs = true →
    charListLE as cs = true := by
  induction as with
  | nil => intro bs cs _ _; rfl
  | cons a as ih =>
    intro bs cs h1 h2
    cases bs with
    | nil => exact absurd h1 (by simp [charListLE])
    | cons b bs =>
      cases cs with
      | nil => exact absurd h2 (by simp [charListLE])
      | cons c cs =>
        have H1 : a.toNat < b.toNat
            ∨ (a.toNat = b.toNat ∧ charListLE as bs = true) := by
          simp only [charListLE] at h1
          by_cases hab : a.toNat < b.toNat
          · exact Or.inl hab
          · rw [if_neg hab] at h1
            by_cases hba : b.toNat < a.toNat
            · rw [if_pos hba] at h1; exact absurd h1 (by simp)
            · rw [if_neg hba] at h1; exact Or.inr ⟨by omega, h1⟩
        have H2 : b.toNat < c.toNat
            ∨ (b.toNat = c.toNat ∧ charListLE bs cs = true) := by
          simp only [charListLE] at h2
          by_cases hbc : b.toNat < c.toNat
          · exact Or.inl hbc
          · rw [if_neg hbc] at h2
            by_cases hcb : c.toNat < b.toNat
            · rw [if_pos hcb] at h2; exact absurd h2 (by simp)
            · rw [if_neg hcb] at h2; exact Or.inr ⟨by omega, h2⟩
        simp only [charListLE]
        rcases H1 with hab | ⟨hab, r1⟩ <;> rcases H2 with hbc | ⟨hbc, r2⟩
        · rw [if_pos (by omega)]
        · rw [if_pos (by omega)]
        · rw [if_pos (by omega)]
        · rw [if_neg (by omega), if_neg (by omega)]
          exact ih bs cs r1 r2

/-- The string order used by `.sort()` with no comparator. -/
def strLE (a b : String) : Prop := charListLE a.data b.data = true

instance : DecidableRel strLE := fun a b =>
  inferInstanceAs (Decidable (charListLE a.data b.data = true))

instance : IsTotal String strLE := ⟨fun a b => charListLE_total a.data b.data⟩

instance : IsTrans String strLE :=
  ⟨fun a b c => charListLE_trans a.data b.data c.data⟩

/-- `[...new Set(data.map(d => d.source_file))].sort()` (lines 324 and
345-347): the distinct source identifiers in sorted order. -/
def uniquePmts (data : List Point) : List String :=
  ((data.map (fun d => d.source_file)).dedup).insertionSort strLE

/-- Embedding of `pmtColorMap` (lines 349-354): each distinct source, in
sorted order, is paired with `PLOT_COLORS[index % PLOT_COLORS.length]`. -/
def pmtColorMap (data : List Point) : List (String × String) :=
  (uniquePmts data).enum.map (fun pr =>
    (pr.2, PLOT_COLORS.getD (pr.1 % PLOT_COLORS.length) ""))

/-- Embedding of the `setSelectedPmts` updater run on every snapshot
(lines 323-332): an empty previous selection is initialised to the first
`Math.min(length, 5)` sorted sources, a non-empty one is filtered to the
sources still present. -/
def updateSelection (data : List Point) (prev : List String) : List String :=
  if prev.length = 0 then
    (uniquePmts data).take (min (uniquePmts data).length 5)
  else
    prev.filter (fun p => (uniquePmts data).contains p)

lemma mem_sortByWavelength (l : List Point) (d : Point) :
    d ∈ sortByWavelength l ↔ d ∈ l :=
  List.mem_insertionSort wlLE

lemma sorted_sortByWavelength (l : List Point) :
    List.Sorted wlLE (sortByWavelength l) :=
  List.sorted_insertionSort wlLE l

lemma mem_uniquePmts (data : List Point) (p : String) :
    p ∈ uniquePmts data ↔ p ∈ data.map (fun d => d.source_file) := by
  simp [uniquePmts, List.mem_insertionSort, List.mem_dedup]

lemma nodup_uniquePmts (data : List Point) : (uniquePmts data).Nodup :=
  ((List.perm_insertionSort _ _).nodup_iff).2 (List.nodup_dedup _)

lemma sorted_uniquePmts (data : List Point) :
    List.Sorted strLE (uniquePmts data) :=
  List.sorted_insertionSort _ _

/-- C4 (counterexample): the grouping keeps one entry for EVERY selected
identifier, including one that is absent from the snapshot — for data
containing only source "A" and selection `["A", "B"]`, the output contains
an (empty) group keyed `"B"` even though `"B"` is not a source of any
point.  The claim's "no group for a selected source absent from the
snapshot" is therefore false as stated. -/
theorem c4_grouping_counterexample :
    ("B", ([] : List Point))
        ∈ dataByPmt [⟨"A", 0, 0, 0, 0⟩] ["A", "B"] ∧
    "B" ∉ ([(⟨"A", 0, 0, 0, 0⟩ : Point)].map (fun d => d.source_file)) := by
  decide

/-- C4 (amended): the grouping produces exactly one group per selected
source, in selection order — a selected source absent from the snapshot
receives an EMPTY group rather than no group, and no group exists for an
unselected source; within each group the points are exactly the snapshot
points of that source, sorted non-decreasing by wavelength. -/
theorem c4_grouping_amended (data : List Point) (pmtList : List String) :
    (dataByPmt data pmtList).map Prod.fst = pmtList ∧
    ∀ pr ∈ dataByPmt data pmtList,
      List.Sorted wlLE pr.2 ∧
      (∀ d : Point, d ∈ pr.2 ↔ d ∈ data ∧ d.source_file = pr.1) ∧
      (pr.1 ∉ data.map (fun d => d.source_file) → pr.2 = []) := by
  constructor
  · simp only [dataByPmt, List.map_map]
    exact List.map_id _ ▸ (List.map_congr_left (fun a _ => rfl))
  · intro pr hpr
    obtain ⟨pmt, hpmt, hpr⟩ := List.mem_map.1 hpr
    subst hpr
    refine ⟨sorted_sortByWavelength _, ?_, ?_⟩
    · intro d
      rw [mem_sortByWavelength, List.mem_filter]
      simp
    · intro habs
      have : data.filter (fun d => d.source_file == pmt) = [] := by
        rw [List.filter_eq_nil_iff]
        intro d hd hbeq
        exact habs (List.mem_map.2 ⟨d, hd, by simpa using hbeq⟩)
      simp [sortByWavelength, this]

/-- Witness for C4 (amended) at one point of source "A" and selection
`["A", "B"]`. -/
theorem c4_grouping_amended_witness :
    ("B", ([] : List Point)) ∈ dataByPmt [⟨"A", 0, 0, 0, 0⟩] ["A", "B"] ∧
    List.Sorted wlLE (("B", ([] : List Point)).2) ∧
    (∀ d : Point, d ∈ ("B", ([] : List Point)).2 ↔
        d ∈ [(⟨"A", 0, 0, 0, 0⟩ : Point)] ∧
        d.source_file = ("B", ([] : List Point)).1) ∧
    (("B", ([] : List Point)).1
        ∉ [(⟨"A", 0, 0, 0, 0⟩ : Point)].map (fun d => d.source_file) →
      ("B", ([] : List Point)).2 = []) :=
  ⟨by decide,
   (c4_grouping_amended [⟨"A", 0, 0, 0, 0⟩] ["A", "B"]).2
     ("B", ([] : List Point)) (by decide)⟩

/-- C5: the color assignment pairs the i-th entry of the sorted list of all
distinct sources of the full snapshot with `PLOT_COLORS[i % PLOT_COLORS.length]`;
the sorted distinct list has no duplicates, is sorted, and contains exactly
the sources of the snapshot; and the assignment depends only on that list,
so it is identical across invocations with the same full source set,
whatever the selection is (the selection is not even an input). -/
theorem c5_color_assignment (data : List Point) :
    (uniquePmts data).Nodup ∧
    List.Sorted strLE (uniquePmts data) ∧
    (∀ p, p ∈ uniquePmts data ↔ p ∈ data.map (fun d => d.source_file)) ∧
    (pmtColorMap data).length = (uniquePmts data).length ∧
    (∀ i, i < (uniquePmts data).length →
      (pmtColorMap data).getD i ("", "")
        = ((uniquePmts data).getD i "",
           PLOT_COLORS.getD (i % PLOT_COLORS.length) "")) ∧
    (∀ data2 : List Point, uniquePmts data2 = uniquePmts data →
      pmtColorMap data2 = pmtColorMap data) := by
  refine ⟨nodup_uniquePmts data, sorted_uniquePmts data, mem_uniquePmts data,
    by simp [pmtColorMap, List.enum_length], ?_, ?_⟩
  · intro i hi
    have hlen : i < (pmtColorMap data).length := by
      simpa [pmtColorMap, List.enum_length] using hi
    have hlen2 : i < (uniquePmts data).enum.length := by
      simpa [List.enum_length] using hi
    rw [List.getD_eq_getElem _ _ hlen, List.getD_eq_getElem _ _ hi]
    simp [pmtColorMap, List.getElem_map, List.getElem_enum]
  · intro data2 h
    simp [pmtColorMap, h]

/-- Witness for C5 at a two-source snapshot, index 0. -/
theorem c5_color_assignment_witness :
    (0 : ℕ) < (uniquePmts [⟨"B", 0, 0, 0, 0⟩, ⟨"A", 0, 0, 0, 0⟩]).length ∧
    (pmtColorMap [⟨"B", 0, 0, 0, 0⟩, ⟨"A", 0, 0, 0, 0⟩]).getD 0 ("", "")
      = ((uniquePmts [⟨"B", 0, 0, 0, 0⟩, ⟨"A", 0, 0, 0, 0⟩]).getD 0 "",
         PLOT_COLORS.getD (0 % PLOT_COLORS.length) "") :=
  ⟨by decide,
   (c5_color_assignment [⟨"B", 0, 0, 0, 0⟩, ⟨"A", 0, 0, 0, 0⟩]).2.2.2.2.1 0
     (by decide)⟩

/-- C6: after a snapshot update, every previously selected source that is no
longer among the snapshot's sources is dropped from the selection, and the
updated selection only contains sources present in the snapshot (in either
branch of the updater; dropping is a plain filter, no error path exists). -/
theorem c6_selection_validated (data : List Point) (prev : List String) :
    (∀ p, p ∈ prev → p ∉ data.map (fun d => d.source_file) →
      p ∉ updateSelection data prev) ∧
    (∀ p, p ∈ updateSelection data prev →
      p ∈ data.map (fun d => d.source_file)) := by
  have hsub : ∀ p, p ∈ updateSelection data prev →
      p ∈ data.map (fun d => d.source_file) := by
    intro p hp
    rw [← mem_uniquePmts]
    unfold updateSelection at hp
    by_cases hlen : prev.length = 0
    · rw [if_pos hlen] at hp
      exact List.take_subset _ _ hp
    · rw [if_neg hlen] at hp
      have := (List.mem_filter.1 hp).2
      simpa [List.elem_iff] using this
  exact ⟨fun p _ hmap hres => hmap (hsub p hres), hsub⟩

/-- Witness for C6: with snapshot containing only source "B", the stale
selection entry "A" is dropped and the result stays inside the snapshot's
sources. -/
theorem c6_selection_validated_witness :
    "A" ∈ ["A", "B"] ∧
    "A" ∉ ([(⟨"B", 0, 0, 0, 0⟩ : Point)].map (fun d => d.source_file)) ∧
    "A" ∉ updateSelection [⟨"B", 0, 0, 0, 0⟩] ["A", "B"] :=
  ⟨by decide, by decide,
   (c6_selection_validated [⟨"B", 0, 0, 0, 0⟩] ["A", "B"]).1 "A"
     (by decide) (by decide)⟩

/-- C7: with empty filtered data the engine returns exactly the placeholder
panel with its explanatory message, and with non-empty data it returns the
drawn chart; these are the only two outcomes (the output type has no other
constructor, and the branch condition is precisely `data.length === 0`). -/
theorem c7_empty_placeholder (data : List Point) (m : String)
    (pmts : List String) :
    (data = [] → SvgLineChart data m pmts
      = .placeholder "No data selected or available to plot.") ∧
    (data ≠ [] → ∃ s, SvgLineChart data m pmts = .chart s) := by
  constructor
  · rintro rfl
    rfl
  · intro h
    unfold SvgLineChart
    rw [if_neg (by simpa [List.length_eq_zero] using h)]
    exact ⟨_, rfl⟩

/-- Witness for C7 on the empty snapshot. -/
theorem c7_empty_placeholder_witness :
    SvgLineChart [] "light_response" []
      = .placeholder "No data selected or available to plot." :=
  (c7_empty_placeholder [] "light_response" []).1 rfl

lemma metricValue_none (d : Point) (m : String)
    (h1 : m ≠ "light_response") (h2 : m ≠ "current") (h3 : m ≠ "intensity")
    (h4 : m ≠ "wavelength") : d.metricValue m = none := by
  simp [Point.metricValue, h1, h2, h3, h4]

lemma metricLabel_unknown (m : String) (h1 : m ≠ "light_response")
    (h2 : m ≠ "current") (h3 : m ≠ "intensity") : metricLabel m = "" := by
  have e1 : ("light_response" == m) = false := beq_eq_false_iff_ne.mpr (Ne.symm h1)
  have e2 : ("current" == m) = false := beq_eq_false_iff_ne.mpr (Ne.symm h2)
  have e3 : ("intensity" == m) = false := beq_eq_false_iff_ne.mpr (Ne.symm h3)
  simp [metricLabel, Y_AXIS_OPTIONS, List.find?, e1, e2, e3]

/-- What an invocation of the component actually yields once the returned
element tree is evaluated: the placeholder panel, a drawn chart, or a crash
— rendering a marker evaluates `d[selectedMetric].toExponential(3)`
(line 214), and when the metric lookup is not a number (`undefined`, or the
string fields) that call throws a TypeError, so the component produces no
output. -/
inductive RenderOutcome where
  | placeholder (message : String)
  | chart (scene : Scene)
  | typeError
deriving DecidableEq

/-- `SvgLineChart` refined with the thrown-error path: if any rendered
marker has no tooltip (its metric lookup produced no number, so
`.toExponential(3)` throws), the render crashes with a TypeError instead of
yielding the chart.  With no marker to render (or a valid metric) the
built output is returned unchanged. -/
def renderChart (data : List Point) (selectedMetric : String)
    (pmtList : List String) : RenderOutcome :=
  match SvgLineChart data selectedMetric pmtList with
  | .placeholder msg => .placeholder msg
  | .chart s =>
      if s.series.any (fun pr => pr.2.any (fun mk => mk.tooltip.isNone)) then
        .typeError
      else .chart s

/-- The y-axis label of a rendered outcome: `none` unless a chart was
produced. -/
def renderLabel : RenderOutcome → Option String
  | .placeholder _ => none
  | .typeError => none
  | .chart s => some s.yAxisLabel

lemma renderChart_chart (data : List Point) (m : String) (pmts : List String)
    (s : Scene) (h : SvgLineChart data m pmts = .chart s) :
    renderChart data m pmts
      = if s.series.any (fun pr => pr.2.any (fun mk => mk.tooltip.isNone))
        then .typeError else .chart s := by
  unfold renderChart
  rw [h]

/-- C8 (counterexample): "voltage" is outside the closed metric enumeration,
yet with nothing selected the engine completes normally — a chart whose
y-axis label silently fell back to the default empty string — and with a
selected series it crashes mid-render with an incidental TypeError from
`undefined.toExponential(3)`.  Neither outcome is the claimed fail-fast
configuration error at the call boundary, and the label default refutes
"never falls back to any default label". -/
theorem c8_unknown_metric_counterexample :
    (Y_AXIS_OPTIONS.find? (fun opt => opt.key == "voltage") = none) ∧
    renderLabel (renderChart [⟨"J23-1062.txt", 1, 2, 3, 4⟩] "voltage" [])
      = some "" ∧
    renderChart [⟨"J23-1062.txt", 1, 2, 3, 4⟩] "voltage" ["J23-1062.txt"]
      = .typeError := by
  decide

/-- C8 (amended): for a selected metric key outside the closed enumeration
the engine performs no fail-fast validation at the call boundary: the memo
computation completes with the y-axis label silently defaulted to the empty
string; then, if any point of a selected source is rendered, the render
crashes with an incidental TypeError thrown by `.toExponential(3)` on the
undefined metric value (no configuration error, no chart), while with no
rendered marker a normal chart with the defaulted empty label is returned. -/
theorem c8_unknown_metric_amended (data : List Point) (m : String)
    (pmts : List String)
    (hm : m ∉ ["light_response", "current", "intensity", "wavelength"])
    (hd : data ≠ []) :
    metricLabel m = "" ∧
    ((∃ d ∈ data, d.source_file ∈ pmts) →
      renderChart data m pmts = .typeError) ∧
    ((∀ d ∈ data, d.source_file ∉ pmts) →
      ∃ s, renderChart data m pmts = .chart s ∧ s.yAxisLabel = "") := by
  simp only [List.mem_cons, List.not_mem_nil, or_false, not_or] at hm
  obtain ⟨h1, h2, h3, h4⟩ := hm
  have hS : ∃ s, SvgLineChart data m pmts = .chart s ∧
      s.series = (dataByPmt data pmts).map (fun pr =>
        (pr.1, pr.2.map (mkMarker pr.1 m))) ∧
      s.yAxisLabel = metricLabel m := by
    unfold SvgLineChart
    rw [if_neg (by simpa [List.length_eq_zero] using hd)]
    exact ⟨_, rfl, rfl, rfl⟩
  obtain ⟨s, hS, hser, hlab⟩ := hS
  refine ⟨metricLabel_unknown m h1 h2 h3, ?_, ?_⟩
  · rintro ⟨d, hdmem, hsrc⟩
    have hc : s.series.any
        (fun pr => pr.2.any (fun mk => mk.tooltip.isNone)) = true := by
      rw [hser, List.any_eq_true]
      refine ⟨(d.source_file,
        (sortByWavelength (data.filter
          (fun d' => d'.source_file == d.source_file))).map
            (mkMarker d.source_file m)), ?_, ?_⟩
      · exact List.mem_map.2 ⟨(d.source_file,
          sortByWavelength (data.filter
            (fun d' => d'.source_file == d.source_file))),
          List.mem_map.2 ⟨d.source_file, hsrc, rfl⟩, rfl⟩
      · rw [List.any_eq_true]
        refine ⟨mkMarker d.source_file m d, List.mem_map.2 ⟨d, ?_, rfl⟩, ?_⟩
        · rw [mem_sortByWavelength, List.mem_filter]
          exact ⟨hdmem, by simp⟩
        · simp [mkMarker, metricValue_none d m h1 h2 h3 h4]
    rw [renderChart_chart data m pmts s hS, if_pos hc]
  · intro habs
    have hc : s.series.any
        (fun pr => pr.2.any (fun mk => mk.tooltip.isNone)) = false := by
      rw [hser, List.any_eq_false]
      intro pr hpr
      obtain ⟨pr0, hpr0, rfl⟩ := List.mem_map.1 hpr
      obtain ⟨q, hq, rfl⟩ := List.mem_map.1 hpr0
      have hfil : data.filter (fun d' => d'.source_file == q) = [] := by
        rw [List.filter_eq_nil_iff]
        intro d' hd' hbeq
        exact habs d' hd' ((by simpa using hbeq : d'.source_file = q) ▸ hq)
      simp [hfil, sortByWavelength]
    refine ⟨s, ?_, hlab.trans (metricLabel_unknown m h1 h2 h3)⟩
    rw [renderChart_chart data m pmts s hS, if_neg (by simp [hc])]

/-- Witness for C8 (amended) at metric "voltage" on a one-point snapshot
with that point's source selected. -/
theorem c8_unknown_metric_amended_witness :
    "voltage" ∉ ["light_response", "current", "intensity", "wavelength"] ∧
    ([(⟨"A", 1, 2, 3, 4⟩ : Point)] ≠ []) ∧
    metricLabel "voltage" = "" ∧
    renderChart [⟨"A", 1, 2, 3, 4⟩] "voltage" ["A"] = .typeError :=
  ⟨by decide, by decide,
   (c8_unknown_metric_amended [⟨"A", 1, 2, 3, 4⟩] "voltage" ["A"]
     (by decide) (by decide)).1,
   (c8_unknown_metric_amended [⟨"A", 1, 2, 3, 4⟩] "voltage" ["A"]
     (by decide) (by decide)).2.1 ⟨⟨"A", 1, 2, 3, 4⟩, by decide, by decide⟩⟩

/-- Modelled from the spec's words: a tooltip whose metric value is shown in
"3-significant-digit scientific notation", i.e. one leading digit and two
fraction digits — `toExponential(2)`.  Used only to compare the spec's
claimed format against the code's actual `toExponential(3)`. -/
def specTooltipSig3 (pmt : String) (d : Point) (m : String) (v : ℚ) : String :=
  pmt ++ ": Wavelength=" ++ jsToFixed1 d.wavelength ++ "nm, " ++ m ++ "="
    ++ jsToExponential 2 v

/-- C9 (counterexample): for the first sample point, the code's tooltip
renders the metric with `toExponential(3)` — three FRACTION digits, hence
four significant digits ("2.707e-12") — which differs from the claimed
3-significant-digit rendering ("2.71e-12"). -/
theorem c9_tooltip_counterexample :
    tooltipString "J23-1062.txt"
        ⟨"J23-1062.txt", -47751 / 10 ^ 14, 17641 / 100, 205988 / 1000,
          27068 / 10 ^ 16⟩
        "light_response" (27068 / 10 ^ 16)
      = "J23-1062.txt: Wavelength=206.0nm, light_response=2.707e-12" ∧
    specTooltipSig3 "J23-1062.txt"
        ⟨"J23-1062.txt", -47751 / 10 ^ 14, 17641 / 100, 205988 / 1000,
          27068 / 10 ^ 16⟩
        "light_response" (27068 / 10 ^ 16)
      = "J23-1062.txt: Wavelength=206.0nm, light_response=2.71e-12" ∧
    tooltipString "J23-1062.txt"
        ⟨"J23-1062.txt", -47751 / 10 ^ 14, 17641 / 100, 205988 / 1000,
          27068 / 10 ^ 16⟩
        "light_response" (27068 / 10 ^ 16)
      ≠ specTooltipSig3 "J23-1062.txt"
        ⟨"J23-1062.txt", -47751 / 10 ^ 14, 17641 / 100, 205988 / 1000,
          27068 / 10 ^ 16⟩
        "light_response" (27068 / 10 ^ 16) := by
  decide

/-- C9 (amended): every marker of every rendered series carries the tooltip
`"<sourceId>: Wavelength=<1 decimal>nm, <metricKey>=<toExponential(3)>"` —
wavelength with one decimal place, metric value in scientific notation with
three fraction digits (four significant digits) — built from a point of the
input data belonging to that series. -/
theorem c9_tooltip_amended (data : List Point) (m : String)
    (pmts : List String) (s : Scene) (h : SvgLineChart data m pmts = .chart s)
    (pmt : String) (mks : List Marker) (hs : (pmt, mks) ∈ s.series)
    (mk : Marker) (hmk : mk ∈ mks) (v : ℚ) (hv : mk.value = some v) :
    ∃ d : Point, d ∈ data ∧ d.source_file = pmt ∧ d.metricValue m = some v ∧
      mk.tooltip = some (pmt ++ ": Wavelength=" ++ jsToFixed1 d.wavelength
        ++ "nm, " ++ m ++ "=" ++ jsToExponential 3 v) := by
  unfold SvgLineChart at h
  by_cases hlen : data.length = 0
  · rw [if_pos hlen] at h
    exact absurd h (by simp)
  · rw [if_neg hlen] at h
    injection h with h
    subst h
    dsimp only at hs
    obtain ⟨pr, hpr, heq⟩ := List.mem_map.1 hs
    obtain ⟨q, hq, hqeq⟩ := List.mem_map.1 hpr
    subst hqeq
    rw [Prod.ext_iff] at heq
    obtain ⟨h1, h2⟩ := heq
    dsimp only at h1 h2
    subst h1
    subst h2
    obtain ⟨d, hd, hdeq⟩ := List.mem_map.1 hmk
    subst hdeq
    rw [mem_sortByWavelength, List.mem_filter] at hd
    obtain ⟨hdData, hdSrc⟩ := hd
    simp only [mkMarker] at hv
    refine ⟨d, hdData, by simpa using hdSrc, hv, ?_⟩
    simp [mkMarker, tooltipString, hv]

/-- Witness for C9 (amended) on a one-point snapshot with metric
"current". -/
theorem c9_tooltip_amended_witness :
    (Marker.mk 1 (some 1)
        (some "A: Wavelength=1.0nm, current=1.000e+0")).value = some 1 ∧
    ∃ d : Point, d ∈ [(⟨"A", 1, 1, 1, 1⟩ : Point)] ∧ d.source_file = "A" ∧
      d.metricValue "current" = some 1 ∧
      (Marker.mk 1 (some 1)
          (some "A: Wavelength=1.0nm, current=1.000e+0")).tooltip
        = some ("A" ++ ": Wavelength=" ++ jsToFixed1 d.wavelength ++ "nm, "
            ++ "current" ++ "=" ++ jsToExponential 3 1) :=
  ⟨by decide,
   c9_tooltip_amended [⟨"A", 1, 1, 1, 1⟩] "current" ["A"]
     ⟨[1, 1, 1, 1, 1, 1],
      [.fin 1, .fin 1, .fin 1, .fin 1, .fin 1, .fin 1],
      "Current (A)",
      [("A", [⟨1, some 1, some "A: Wavelength=1.0nm, current=1.000e+0"⟩])]⟩
     (by decide) "A"
     [⟨1, some 1, some "A: Wavelength=1.0nm, current=1.000e+0"⟩]
     (by decide)
     ⟨1, some 1, some "A: Wavelength=1.0nm, current=1.000e+0"⟩
     (by decide) 1 (by decide)⟩

/-- C10: on a snapshot arriving while the selection is empty, the selection
is initialised to the first 5 entries of the sorted distinct source list
(all of them when fewer than 5 exist); a non-empty prior selection is only
filtered — the result is exactly the prior list restricted to still-present
sources, so it is never extended. -/
theorem c10_default_selection (data : List Point) (prev : List String) :
    (prev = [] →
      updateSelection data prev = (uniquePmts data).take 5 ∧
      ((uniquePmts data).length ≤ 5 →
        updateSelection data prev = uniquePmts data)) ∧
    (prev ≠ [] →
      updateSelection data prev
        = prev.filter (fun p => (uniquePmts data).contains p) ∧
      ∀ p, p ∈ updateSelection data prev → p ∈ prev) := by
  have htake : (uniquePmts data).take (min (uniquePmts data).length 5)
      = (uniquePmts data).take 5 := by
    rw [min_comm, ← List.take_take, List.take_length]
  constructor
  · rintro rfl
    have hbase : updateSelection data [] = (uniquePmts data).take 5 := by
      simp only [updateSelection, List.length_nil, reduceIte]
      exact htake
    exact ⟨hbase, fun hle => hbase.trans (List.take_of_length_le hle)⟩
  · intro h
    have hlen : ¬ prev.length = 0 := by simpa [List.length_eq_zero] using h
    have hbase : updateSelection data prev
        = prev.filter (fun p => (uniquePmts data).contains p) := by
      unfold updateSelection
      rw [if_neg hlen]
    refine ⟨hbase, fun p hp => ?_⟩
    rw [hbase] at hp
    exact (List.mem_filter.1 hp).1

/-- Witness for C10: empty prior selection over a one-source snapshot. -/
theorem c10_default_selection_witness :
    (([] : List String) = []) ∧
    updateSelection [⟨"A", 0, 0, 0, 0⟩] []
      = (uniquePmts [⟨"A", 0, 0, 0, 0⟩]).take 5 :=
  ⟨rfl, ((c10_default_selection [⟨"A", 0, 0, 0, 0⟩] []).1 rfl).1⟩

end PMTExplorer
